import Mathlib

/-!
Verification of the book-manager HTTP service (src/src/main.rs).

The service exposes CRUD handlers over a single relational table `books`.
We embed the database state as a list of rows plus the auto-increment
counter, the SQL statements as pure functions on that state, and each
handler as a function that additionally takes two booleans modelling the
two fallible environment interactions of every handler body:
  - acquireOk : whether `db.acquire().await` succeeds (main.rs lines 56,
    73, 118, 152);
  - execOk    : whether the single SQL statement executes without a
    driver error.
MySQL `now()` is modelled as a `Nat` parameter `now` supplied to every
statement that writes a timestamp.  `eprintln!` on the error branch is
modelled as a `Bool` component (`logged`) of the handler result.
`Result::unwrap` is modelled as `Option`-valued: `none` is the panic
branch, so a handler's whole result is an `Option`; totality of the
handler is the statement that the result is always `some`.
-/

namespace BookManager

namespace StatusCode

def OK : Nat := 200

def CREATED : Nat := 201

def NO_CONTENT : Nat := 204

def BAD_REQUEST : Nat := 400

def INTERNAL_SERVER_ERROR : Nat := 500

end StatusCode

/-- The Book row struct (main.rs lines 15-25).  `NaiveDateTime` timestamps
are modelled as `Nat` clock ticks. -/
structure Book where
  id : Int
  title : String
  author : String
  publisher : String
  isbn : String
  comment : String
  created_at : Nat
  updated_at : Nat
  deriving DecidableEq, Repr

/-- Request body of the create handler (main.rs lines 28-35). -/
structure CreateNewBook where
  title : String
  author : String
  publisher : String
  isbn : String
  comment : String
  deriving DecidableEq, Repr

/-- Request body of the update-comment handler (main.rs lines 37-40). -/
structure UpdateComment where
  comment : String
  deriving DecidableEq, Repr

/-- The state of the `books` table: its rows plus the auto-increment
counter used for server-generated ids. -/
structure DbState where
  books : List Book
  nextId : Int
  deriving DecidableEq, Repr

/-- `select * from books` (main.rs line 61). -/
def selectAll (db : DbState) : List Book :=
  db.books

/-- `insert into books (title, author, publisher, isbn, comment,
created_at, updated_at) values (?, ?, ?, ?, ?, now(), now())`
(main.rs lines 79-88): appends a fresh row with a server-generated id and
both timestamps set to the same server time; returns the new state and
the affected-row count. -/
def insertBooks (db : DbState) (title author publisher isbn comment : String)
    (now : Nat) : DbState × Nat :=
  ({ books := db.books ++
        [{ id := db.nextId, title := title, author := author,
           publisher := publisher, isbn := isbn, comment := comment,
           created_at := now, updated_at := now }],
     nextId := db.nextId + 1 }, 1)

/-- Row transformation of the UPDATE statement: rows whose id matches get
the new comment and a refreshed updated_at; all other rows are untouched. -/
def updFn (id : Int) (comment : String) (now : Nat) (b : Book) : Book :=
  if b.id == id then { b with comment := comment, updated_at := now } else b

/-- `update books set comment = ?, updated_at = now() where id = ?`
(main.rs lines 124-131): returns the new state and the number of matched
rows. -/
def updateBooks (db : DbState) (comment : String) (now : Nat) (id : Int) :
    DbState × Nat :=
  ({ db with books := db.books.map (updFn id comment now) },
   (db.books.filter (fun b => b.id == id)).length)

/-- `delete from books where id = ?` (main.rs line 157): returns the new
state and the number of deleted rows. -/
def deleteBooks (db : DbState) (id : Int) : DbState × Nat :=
  ({ db with books := db.books.filter (fun b => b.id != id) },
   (db.books.filter (fun b => b.id == id)).length)

/-- `db.acquire().await`: ok connection or acquisition error. -/
def acquire (acquireOk : Bool) : Except Unit Unit :=
  if acquireOk then Except.ok () else Except.error ()

/-- `Result::is_err`. -/
def is_err {α : Type} : Except Unit α → Bool
  | Except.ok _ => false
  | Except.error _ => true

/-- `Result::unwrap`: `none` models the panic branch. -/
def unwrap {α : Type} : Except Unit α → Option α
  | Except.ok a => some a
  | Except.error _ => none

/-- The shared shape of the `match rows_affected` blocks (main.rs lines
96-109, 133-145 and 162-174): exactly one affected row yields the
handler's success status, any other count yields 400, and an execution
error is printed to stderr (the `Bool` component) and yields 500.  On the
error branch the statement did not run, so the state reverts to
`dbOnErr`. -/
def rowsAffectedMatch (success : Nat) (dbOnErr : DbState) :
    Except Unit (DbState × Nat) → (Except Nat Nat) × DbState × Bool
  | Except.ok (db2, count) =>
      if count = 1 then (Except.ok success, db2, false)
      else (Except.error StatusCode.BAD_REQUEST, db2, false)
  | Except.error _ =>
      (Except.error StatusCode.INTERNAL_SERVER_ERROR, dbOnErr, true)

/-- `health_check` (main.rs lines 49-51): a constant; it takes no pool and
returns 204. -/
def health_check : Nat :=
  StatusCode.NO_CONTENT

/-- `book_list` (main.rs lines 53-66).  Success is axum serialising the
row list as JSON with status 200. -/
def book_list (db : DbState) (acquireOk execOk : Bool) :
    Option (Except Nat (Nat × List Book)) :=
  let conn := acquire acquireOk
  if is_err conn then some (Except.error StatusCode.INTERNAL_SERVER_ERROR)
  else
    (unwrap conn).map (fun _ =>
      if execOk then Except.ok (StatusCode.OK, selectAll db)
      else Except.error StatusCode.INTERNAL_SERVER_ERROR)

/-- `create_item` (main.rs lines 68-110).  Result: the HTTP outcome, the
resulting table state, and whether an error was written to stderr. -/
def create_item (req : CreateNewBook) (db : DbState) (now : Nat)
    (acquireOk execOk : Bool) :
    Option ((Except Nat Nat) × DbState × Bool) :=
  let conn := acquire acquireOk
  if is_err conn then
    some (Except.error StatusCode.INTERNAL_SERVER_ERROR, db, false)
  else
    (unwrap conn).map (fun _ =>
      let rows_affected : Except Unit (DbState × Nat) :=
        if execOk then
          Except.ok (insertBooks db req.title req.author req.publisher
            req.isbn req.comment now)
        else Except.error ()
      rowsAffectedMatch StatusCode.CREATED db rows_affected)

/-- `update_comment` (main.rs lines 113-146). -/
def update_comment (id : Int) (req : UpdateComment) (db : DbState)
    (now : Nat) (acquireOk execOk : Bool) :
    Option ((Except Nat Nat) × DbState × Bool) :=
  let conn := acquire acquireOk
  if is_err conn then
    some (Except.error StatusCode.INTERNAL_SERVER_ERROR, db, false)
  else
    (unwrap conn).map (fun _ =>
      let rows_affected : Except Unit (DbState × Nat) :=
        if execOk then Except.ok (updateBooks db req.comment now id)
        else Except.error ()
      rowsAffectedMatch StatusCode.NO_CONTENT db rows_affected)

/-- `delete_item` (main.rs lines 148-175). -/
def delete_item (id : Int) (db : DbState) (acquireOk execOk : Bool) :
    Option ((Except Nat Nat) × DbState × Bool) :=
  let conn := acquire acquireOk
  if is_err conn then
    some (Except.error StatusCode.INTERNAL_SERVER_ERROR, db, false)
  else
    (unwrap conn).map (fun _ =>
      let rows_affected : Except Unit (DbState × Nat) :=
        if execOk then Except.ok (deleteBooks db id)
        else Except.error ()
      rowsAffectedMatch StatusCode.NO_CONTENT db rows_affected)

/-- The mutating operations, for reasoning about reachable table states. -/
inductive Op where
  | create (req : CreateNewBook)
  | update (id : Int) (req : UpdateComment)
  | delete (id : Int)
  deriving Repr

/-- Effect on the table of one successfully executed statement issued at
server time `now`.  Failed requests leave the state unchanged, so the
reachable states are exactly the results of traces of successful
mutations. -/
def applyOp (db : DbState) (now : Nat) : Op → DbState
  | Op.create req =>
      (insertBooks db req.title req.author req.publisher req.isbn
        req.comment now).1
  | Op.update id req => (updateBooks db req.comment now id).1
  | Op.delete id => (deleteBooks db id).1

/-- Run a trace of timestamped mutations. -/
def execTrace : DbState → List (Nat × Op) → DbState
  | db, [] => db
  | db, (now, op) :: rest => execTrace (applyOp db now op) rest

/-- The server clock never runs backwards along a trace starting at time
`t`. -/
def Chron : Nat → List (Nat × Op) → Prop
  | _, [] => True
  | t, (now, _) :: rest => t ≤ now ∧ Chron now rest

/-- Timestamp invariant at clock value `t`: every row has
created_at ≤ updated_at, and no stored timestamp is in the future. -/
def TimeInv (t : Nat) (db : DbState) : Prop :=
  ∀ b ∈ db.books, b.created_at ≤ b.updated_at ∧ b.updated_at ≤ t

/-- The empty table the service starts from. -/
def initState : DbState :=
  { books := [], nextId := 1 }

/-! ### Helper lemmas -/

lemma map_updFn_of_absent (id : Int) (c : String) (now : Nat)
    (l : List Book) (h : ∀ b ∈ l, b.id ≠ id) :
    l.map (updFn id c now) = l := by
  induction l with
  | nil => rfl
  | cons b t ih =>
    have hb : b.id ≠ id := h b (List.mem_cons_self b t)
    have ht : ∀ x ∈ t, x.id ≠ id := fun x hx => h x (List.mem_cons_of_mem b hx)
    simp [updFn, hb, ih ht]

lemma filter_id_eq_nil_of_absent (id : Int) (l : List Book)
    (h : ∀ b ∈ l, b.id ≠ id) :
    l.filter (fun b => b.id == id) = [] := by
  induction l with
  | nil => rfl
  | cons b t ih =>
    have hb : b.id ≠ id := h b (List.mem_cons_self b t)
    have ht : ∀ x ∈ t, x.id ≠ id := fun x hx => h x (List.mem_cons_of_mem b hx)
    simp [List.filter_cons, hb, ih ht]

lemma filter_ne_of_absent (id : Int) (l : List Book)
    (h : ∀ b ∈ l, b.id ≠ id) :
    l.filter (fun b => b.id != id) = l := by
  induction l with
  | nil => rfl
  | cons b t ih =>
    have hb : b.id ≠ id := h b (List.mem_cons_self b t)
    have ht : ∀ x ∈ t, x.id ≠ id := fun x hx => h x (List.mem_cons_of_mem b hx)
    simp [List.filter_cons, hb, ih ht]

lemma mem_filter_ne_id (id : Int) (l : List Book) :
    ∀ b ∈ l.filter (fun b => b.id != id), b.id ≠ id := by
  intro b hb
  have := (List.mem_filter.mp hb).2
  simpa using this

/-- The not-found branch of the update handler: no row matches, the
UPDATE touches nothing, the handler returns 400 and logs nothing. -/
lemma update_comment_absent (id : Int) (req : UpdateComment) (db : DbState)
    (now : Nat) (h : ∀ b ∈ db.books, b.id ≠ id) :
    update_comment id req db now true true =
      some (Except.error StatusCode.BAD_REQUEST, db, false) := by
  simp [update_comment, acquire, is_err, unwrap, updateBooks,
    rowsAffectedMatch, map_updFn_of_absent id req.comment now db.books h,
    filter_id_eq_nil_of_absent id db.books h]

/-- The not-found branch of the delete handler. -/
lemma delete_item_absent (id : Int) (db : DbState)
    (h : ∀ b ∈ db.books, b.id ≠ id) :
    delete_item id db true true =
      some (Except.error StatusCode.BAD_REQUEST, db, false) := by
  simp [delete_item, acquire, is_err, unwrap, deleteBooks,
    rowsAffectedMatch, filter_ne_of_absent id db.books h,
    filter_id_eq_nil_of_absent id db.books h]

/-! ### Claim theorems -/

/-- C1: for every valid CreateNewBookRequest payload, running the create
handler (on a working pool and storage engine) and then the list handler
yields exactly one additional Book record — the previous rows followed by
one new row whose title, author, publisher, isbn and comment equal the
submitted values and whose created_at equals updated_at. -/
theorem create_then_list_adds_one (req : CreateNewBook) (db : DbState)
    (now : Nat) :
    create_item req db now true true =
      some (Except.ok StatusCode.CREATED,
        { books := db.books ++
            [{ id := db.nextId, title := req.title, author := req.author,
               publisher := req.publisher, isbn := req.isbn,
               comment := req.comment, created_at := now,
               updated_at := now }],
          nextId := db.nextId + 1 }, false) ∧
    book_list
        { books := db.books ++
            [{ id := db.nextId, title := req.title, author := req.author,
               publisher := req.publisher, isbn := req.isbn,
               comment := req.comment, created_at := now,
               updated_at := now }],
          nextId := db.nextId + 1 } true true =
      some (Except.ok (StatusCode.OK, db.books ++
        [{ id := db.nextId, title := req.title, author := req.author,
           publisher := req.publisher, isbn := req.isbn,
           comment := req.comment, created_at := now,
           updated_at := now }])) := by
  constructor
  · rfl
  · rfl

/-- C6: the list handler on success returns 200 with every Book record
currently in storage; on acquisition failure or query failure it
returns 500. -/
theorem book_list_spec (db : DbState) :
    book_list db true true = some (Except.ok (StatusCode.OK, db.books)) ∧
    (∀ e, book_list db false e =
      some (Except.error StatusCode.INTERNAL_SERVER_ERROR)) ∧
    book_list db true false =
      some (Except.error StatusCode.INTERNAL_SERVER_ERROR) := by
  refine ⟨rfl, fun e => rfl, rfl⟩

/-- C8: the health-check handler is a pure constant — it takes no pool
and no request and returns 204 on every invocation. -/
theorem health_check_always_204 :
    health_check = StatusCode.NO_CONTENT := rfl

/-- C9: in each of the four pool-using handlers the unwrap of the
acquisition result is guarded by the preceding is_err early return, so
the panic branch (modelled as a none result) is unreachable: every
handler returns some status on every input and acquisition outcome. -/
theorem handlers_total (db : DbState) (req : CreateNewBook)
    (upd : UpdateComment) (id : Int) (now : Nat) (a e : Bool) :
    (book_list db a e).isSome ∧
    (create_item req db now a e).isSome ∧
    (update_comment id upd db now a e).isSome ∧
    (delete_item id db a e).isSome := by
  cases a <;>
    simp [book_list, create_item, update_comment, delete_item,
      acquire, is_err, unwrap]

/-- C2: for an id stored exactly once, the update-comment handler (on a
working pool and storage engine, with the server clock strictly past the
row's stored updated_at) succeeds with 204, the new table is the pointwise
update of the old one, rows with other ids are untouched, and on the
matched row only comment and updated_at change — id, title, author,
publisher, isbn and created_at are preserved — with updated_at strictly
increasing. -/
theorem update_comment_frame (id : Int) (req : UpdateComment)
    (db : DbState) (now : Nat)
    (hone : (db.books.filter (fun b => b.id == id)).length = 1)
    (hmono : ∀ b ∈ db.books, b.id = id → b.updated_at < now) :
    update_comment id req db now true true =
      some (Except.ok StatusCode.NO_CONTENT,
        { books := db.books.map (updFn id req.comment now),
          nextId := db.nextId }, false) ∧
    (∀ b ∈ db.books, b.id ≠ id → updFn id req.comment now b = b) ∧
    (∀ b ∈ db.books, b.id = id →
      (updFn id req.comment now b).id = b.id ∧
      (updFn id req.comment now b).title = b.title ∧
      (updFn id req.comment now b).author = b.author ∧
      (updFn id req.comment now b).publisher = b.publisher ∧
      (updFn id req.comment now b).isbn = b.isbn ∧
      (updFn id req.comment now b).created_at = b.created_at ∧
      (updFn id req.comment now b).comment = req.comment ∧
      b.updated_at < (updFn id req.comment now b).updated_at) := by
  refine ⟨?_, ?_, ?_⟩
  · simp [update_comment, acquire, is_err, unwrap, updateBooks,
      rowsAffectedMatch, hone]
  · intro b _ hb
    simp [updFn, hb]
  · intro b hb hid
    simp [updFn, hid]
    exact hmono b hb hid

theorem update_comment_frame_witness :
    (((DbState.mk [Book.mk 1 "T" "A" "P" "123" "c" 3 3] 2).books.filter
        (fun b => b.id == (1 : Int))).length = 1 ∧
      ∀ b ∈ (DbState.mk [Book.mk 1 "T" "A" "P" "123" "c" 3 3] 2).books,
        b.id = (1 : Int) → b.updated_at < 5) ∧
    (update_comment 1 (UpdateComment.mk "c2")
        (DbState.mk [Book.mk 1 "T" "A" "P" "123" "c" 3 3] 2) 5 true true =
      some (Except.ok StatusCode.NO_CONTENT,
        { books := (DbState.mk [Book.mk 1 "T" "A" "P" "123" "c" 3 3] 2).books.map
            (updFn 1 "c2" 5),
          nextId := 2 }, false)) :=
  ⟨⟨by decide, by decide⟩,
    (update_comment_frame 1 (UpdateComment.mk "c2")
      (DbState.mk [Book.mk 1 "T" "A" "P" "123" "c" 3 3] 2) 5
      (by decide) (by decide)).1⟩

/-- C3: for an id matching no stored row, both the update-comment handler
and the delete handler (on a working pool and storage engine) return 400
and leave the stored set of books completely unchanged, with nothing
logged. -/
theorem not_found_leaves_state (id : Int) (req : UpdateComment)
    (db : DbState) (now : Nat) (h : ∀ b ∈ db.books, b.id ≠ id) :
    update_comment id req db now true true =
      some (Except.error StatusCode.BAD_REQUEST, db, false) ∧
    delete_item id db true true =
      some (Except.error StatusCode.BAD_REQUEST, db, false) :=
  ⟨update_comment_absent id req db now h, delete_item_absent id db h⟩

theorem not_found_leaves_state_witness :
    (∀ b ∈ (DbState.mk [Book.mk 1 "T" "A" "P" "123" "c" 3 3] 2).books,
        b.id ≠ (7 : Int)) ∧
    update_comment 7 (UpdateComment.mk "x")
        (DbState.mk [Book.mk 1 "T" "A" "P" "123" "c" 3 3] 2) 9 true true =
      some (Except.error StatusCode.BAD_REQUEST,
        DbState.mk [Book.mk 1 "T" "A" "P" "123" "c" 3 3] 2, false) ∧
    delete_item 7 (DbState.mk [Book.mk 1 "T" "A" "P" "123" "c" 3 3] 2)
        true true =
      some (Except.error StatusCode.BAD_REQUEST,
        DbState.mk [Book.mk 1 "T" "A" "P" "123" "c" 3 3] 2, false) :=
  ⟨by decide,
    (not_found_leaves_state 7 (UpdateComment.mk "x")
      (DbState.mk [Book.mk 1 "T" "A" "P" "123" "c" 3 3] 2) 9 (by decide)).1,
    (not_found_leaves_state 7 (UpdateComment.mk "x")
      (DbState.mk [Book.mk 1 "T" "A" "P" "123" "c" 3 3] 2) 9 (by decide)).2⟩

/-- C4 counterexample: on a connection-acquisition failure the create
handler returns 500 but writes nothing to the diagnostic stream (the
early return at main.rs lines 74-76 has no eprintln), so the claim that
any connection-acquisition error is logged is false at this input. -/
theorem create_acquire_error_not_logged :
    create_item (CreateNewBook.mk "T" "A" "P" "123" "c")
        (DbState.mk [] 1) 0 false true =
      some (Except.error StatusCode.INTERNAL_SERVER_ERROR,
        DbState.mk [] 1, false) ∧
    (create_item (CreateNewBook.mk "T" "A" "P" "123" "c")
        (DbState.mk [] 1) 0 false true).map (fun r => r.2.2) ≠
      some true := by
  refine ⟨rfl, by decide⟩

/-- C4 amended: the create handler returns 201 with an empty body exactly
when the INSERT reports one affected row and 400 for any other count;
a query-execution error yields 500 with the error logged; a
connection-acquisition error yields 500 without logging. -/
theorem create_item_status_spec (req : CreateNewBook) (db : DbState)
    (now : Nat) :
    (∀ e, create_item req db now false e =
      some (Except.error StatusCode.INTERNAL_SERVER_ERROR, db, false)) ∧
    create_item req db now true false =
      some (Except.error StatusCode.INTERNAL_SERVER_ERROR, db, true) ∧
    create_item req db now true true =
      some (Except.ok StatusCode.CREATED,
        (insertBooks db req.title req.author req.publisher req.isbn
          req.comment now).1, false) ∧
    (∀ db2 count, rowsAffectedMatch StatusCode.CREATED db
        (Except.ok (db2, count)) =
      if count = 1 then (Except.ok StatusCode.CREATED, db2, false)
      else (Except.error StatusCode.BAD_REQUEST, db2, false)) ∧
    rowsAffectedMatch StatusCode.CREATED db (Except.error ()) =
      (Except.error StatusCode.INTERNAL_SERVER_ERROR, db, true) := by
  refine ⟨fun e => rfl, rfl, rfl, fun db2 count => rfl, rfl⟩

/-- C5: for an id stored exactly once, deleting twice (on a working pool
and storage engine) yields 204 then 400, and afterwards the list handler
returns 200 with a row list in which that id is absent. -/
theorem delete_idempotent (id : Int) (db : DbState)
    (hone : (db.books.filter (fun b => b.id == id)).length = 1) :
    delete_item id db true true =
      some (Except.ok StatusCode.NO_CONTENT, (deleteBooks db id).1,
        false) ∧
    delete_item id (deleteBooks db id).1 true true =
      some (Except.error StatusCode.BAD_REQUEST, (deleteBooks db id).1,
        false) ∧
    book_list (deleteBooks db id).1 true true =
      some (Except.ok (StatusCode.OK, (deleteBooks db id).1.books)) ∧
    ∀ b ∈ (deleteBooks db id).1.books, b.id ≠ id := by
  refine ⟨?_, ?_, rfl, ?_⟩
  · simp [delete_item, acquire, is_err, unwrap, deleteBooks,
      rowsAffectedMatch, hone]
  · exact delete_item_absent id (deleteBooks db id).1
      (mem_filter_ne_id id db.books)
  · exact mem_filter_ne_id id db.books

theorem delete_idempotent_witness :
    ((DbState.mk [Book.mk 1 "T" "A" "P" "123" "c" 3 3,
        Book.mk 2 "U" "B" "Q" "456" "d" 4 4] 3).books.filter
      (fun b => b.id == (1 : Int))).length = 1 ∧
    delete_item 1 (DbState.mk [Book.mk 1 "T" "A" "P" "123" "c" 3 3,
        Book.mk 2 "U" "B" "Q" "456" "d" 4 4] 3) true true =
      some (Except.ok StatusCode.NO_CONTENT,
        (deleteBooks (DbState.mk [Book.mk 1 "T" "A" "P" "123" "c" 3 3,
          Book.mk 2 "U" "B" "Q" "456" "d" 4 4] 3) 1).1, false) :=
  ⟨by decide,
    (delete_idempotent 1 (DbState.mk [Book.mk 1 "T" "A" "P" "123" "c" 3 3,
      Book.mk 2 "U" "B" "Q" "456" "d" 4 4] 3) (by decide)).1⟩

/-- C10: the update-comment and delete handlers (on a working pool and
storage engine) return 204 exactly when the statement's affected-row
count is one and 400 for every other count — not only for zero: the count
is the number of rows matching the id, whatever it is. -/
theorem update_delete_cardinality (id : Int) (req : UpdateComment)
    (db : DbState) (now : Nat) :
    update_comment id req db now true true =
      some (if (db.books.filter (fun b => b.id == id)).length = 1
        then (Except.ok StatusCode.NO_CONTENT,
          (updateBooks db req.comment now id).1, false)
        else (Except.error StatusCode.BAD_REQUEST,
          (updateBooks db req.comment now id).1, false)) ∧
    delete_item id db true true =
      some (if (db.books.filter (fun b => b.id == id)).length = 1
        then (Except.ok StatusCode.NO_CONTENT, (deleteBooks db id).1,
          false)
        else (Except.error StatusCode.BAD_REQUEST, (deleteBooks db id).1,
          false)) := by
  constructor
  · rfl
  · rfl

/-- One successful mutation at a time not before the clock value that
bounds the current state preserves the timestamp invariant. -/
lemma timeInv_applyOp (t now : Nat) (db : DbState) (op : Op)
    (hinv : TimeInv t db) (hle : t ≤ now) :
    TimeInv now (applyOp db now op) := by
  cases op with
  | create req =>
    intro b hb
    simp [applyOp, insertBooks] at hb
    rcases hb with hb | hb
    · rcases hinv b hb with ⟨h1, h2⟩
      exact ⟨h1, le_trans h2 hle⟩
    · subst hb
      exact ⟨le_refl now, le_refl now⟩
  | update id req =>
    intro b hb
    simp [applyOp, updateBooks, List.mem_map] at hb
    obtain ⟨a, ha, rfl⟩ := hb
    rcases hinv a ha with ⟨h1, h2⟩
    by_cases hid : (a.id == id) = true
    · simp [updFn, hid]
      exact le_trans h1 (le_trans h2 hle)
    · simp [updFn, hid]
      exact ⟨h1, le_trans h2 hle⟩
  | delete id =>
    intro b hb
    simp [applyOp, deleteBooks, List.mem_filter] at hb
    rcases hinv b hb.1 with ⟨h1, h2⟩
    exact ⟨h1, le_trans h2 hle⟩

lemma timeInv_execTrace :
    ∀ (tr : List (Nat × Op)) (t : Nat) (db : DbState),
      TimeInv t db → Chron t tr →
      ∀ b ∈ (execTrace db tr).books, b.created_at ≤ b.updated_at := by
  intro tr
  induction tr with
  | nil =>
    intro t db hinv _ b hb
    exact (hinv b hb).1
  | cons p rest ih =>
    intro t db hinv hchron
    obtain ⟨now, op⟩ := p
    obtain ⟨hle, hrest⟩ := hchron
    exact ih now (applyOp db now op)
      (timeInv_applyOp t now db op hinv hle) hrest

/-- C7: along every chronological trace of successful mutations from the
empty table, every stored row satisfies created_at ≤ updated_at — the
create statement sets both timestamps to the same server time, the
update statement only moves updated_at forward, and the delete statement
only removes rows. -/
theorem created_le_updated_invariant (tr : List (Nat × Op))
    (hchron : Chron 0 tr) :
    ∀ b ∈ (execTrace initState tr).books,
      b.created_at ≤ b.updated_at :=
  timeInv_execTrace tr 0 initState
    (by intro b hb; simp [initState] at hb) hchron

theorem created_le_updated_invariant_witness :
    Chron 0 [(1, Op.create (CreateNewBook.mk "T" "A" "P" "123" "c")),
      (2, Op.update 1 (UpdateComment.mk "c2")), (3, Op.delete 2)] ∧
    ∀ b ∈ (execTrace initState
        [(1, Op.create (CreateNewBook.mk "T" "A" "P" "123" "c")),
          (2, Op.update 1 (UpdateComment.mk "c2")),
          (3, Op.delete 2)]).books,
      b.created_at ≤ b.updated_at :=
  ⟨by simp [Chron],
    created_le_updated_invariant
      [(1, Op.create (CreateNewBook.mk "T" "A" "P" "123" "c")),
        (2, Op.update 1 (UpdateComment.mk "c2")), (3, Op.delete 2)]
      (by simp [Chron])⟩

end BookManager
